import Mathlib

set_option maxHeartbeats 1000000
set_option maxRecDepth 4000

/-!
Shallow embedding of the event-recognizer core
(src/src/components/event-recognizer.tsx).

The component keeps four pieces of state: the recognized events, the
selection set (checkedEvents), and the rate-governor counters
(requestCount, lastRequestTime).  handleSubmit is the single entry
point: it checks the input length, applies the rate gate, calls the
completion boundary, parses the accumulated text as JSON, assigns a
fresh id to every array element via object spread, and stores the
result.  generateICS serializes the selected events into an iCalendar
document.

External boundaries are modelled as parameters: the JS builtin
JSON.parse becomes an Option-valued function argument (none = throw),
the completion call becomes an Option String argument (none = no
result), and the successive Math.random-based id tokens become a
function from the call index to the produced token.
-/

/-- Decimal digit rendering worker, structurally recursive on a fuel
argument so that it evaluates by kernel reduction. -/
def natDigitsGo : Nat → Nat → List Char
  | 0, _ => []
  | fuel + 1, n =>
      if n < 10 then [Char.ofNat (48 + n)]
      else natDigitsGo fuel (n / 10) ++ [Char.ofNat (48 + n % 10)]

/-- Decimal digit list of a natural number, most significant digit
first, as JavaScript template interpolation renders an integral
number.  The fuel n + 1 always suffices since the value shrinks at
every division by ten. -/
def natDigits (n : Nat) : List Char := natDigitsGo (n + 1) n

/-- String rendering of a natural number (JS template interpolation). -/
def natToString (n : Nat) : String := ⟨natDigits n⟩

/-- Runtime JSON values, the possible results of the JSON.parse builtin. -/
inductive Json where
  | null : Json
  | bool (b : Bool) : Json
  | num (n : Int) : Json
  | str (s : String) : Json
  | arr (elems : List Json) : Json
  | obj (fields : List (String × Json)) : Json

/-- A runtime JavaScript object: an ordered list of own enumerable
properties, as produced by JSON.parse and object spread. -/
abbrev RawRecord := List (String × Json)

/-- Property read on a runtime object (first binding of the key wins;
parsed JSON objects carry each key once). -/
def lookupField : RawRecord → String → Option Json
  | [], _ => none
  | (k', v) :: rest, k => if k' = k then some v else lookupField rest k

/-- Semantics of the object literal that spreads a record and then binds
one key: an existing binding keeps its position and gets the new value,
otherwise the binding is appended. -/
def setField : RawRecord → String → Json → RawRecord
  | [], k, v => [(k, v)]
  | (k', v') :: rest, k, v =>
      if k' = k then (k, v) :: rest else (k', v') :: setField rest k v

/-- Own enumerable properties contributed by spreading a JSON value:
objects contribute their fields, strings contribute indexed one-character
properties, primitives contribute nothing. -/
def jsonSpread : Json → RawRecord
  | .obj fields => fields
  | .str s => s.data.enum.map (fun p => (natToString p.1, Json.str ⟨[p.2]⟩))
  | _ => []

/-- The per-element step of the parse stage: the spread of the element
with the freshly generated id bound on top, as in the object literal
that copies the event and adds an id. -/
def spreadWithId (e : Json) (i : String) : RawRecord :=
  setField (jsonSpread e) "id" (.str i)

/-- Reading the id property of a runtime record as a string (every
record built by the parse stage binds id to a string). -/
def recordId (r : RawRecord) : String :=
  match lookupField r "id" with
  | some (.str s) => s
  | _ => ""

def MAX_REQUESTS_PER_MINUTE : Nat := 8
def MAX_TEXT_LENGTH : Nat := 500
def COOLDOWN_PERIOD : Nat := 60000

/-- The component state touched by handleSubmit: the displayed events,
the selection set kept in sync by the effect hook, and the two
rate-governor counters. -/
structure AppState where
  events : List RawRecord
  checkedEvents : Finset String
  requestCount : Nat
  lastRequestTime : Nat

/-- Observable outcome of one handleSubmit call: which branch ran
(which toast or console path was taken). -/
inductive SubmitOutcome where
  | inputTooLong : SubmitOutcome
  | rateLimited : SubmitOutcome
  | malformed : SubmitOutcome
  | emptyResult : SubmitOutcome
  | success : SubmitOutcome
deriving DecidableEq

/-- The lazy governor reset: when the count has reached the maximum
and the cooldown has elapsed, the count is set back to zero before the
call proceeds (the queued update survives even a later parse failure). -/
def governorReset (s : AppState) : AppState :=
  if MAX_REQUESTS_PER_MINUTE ≤ s.requestCount then
    { s with requestCount := 0 } else s

/-- One handleSubmit call.  jsonParse stands for the JSON.parse builtin
(none = exception), ids gives the successive Math.random-derived id
tokens by element index, result is the resolved completion text (none =
no result).  The returned state is the component state once React has
applied the queued updates and the effect hook has run; the lazy
governor reset (setRequestCount 0) is queued before the try block, so
it survives a parse failure. -/
def handleSubmit (jsonParse : String → Option Json) (ids : Nat → String)
    (s : AppState) (currentTime : Nat) (text : String) (result : Option String) :
    AppState × SubmitOutcome :=
  if text.length > MAX_TEXT_LENGTH then (s, .inputTooLong)
  else if MAX_REQUESTS_PER_MINUTE ≤ s.requestCount ∧
      currentTime - s.lastRequestTime < COOLDOWN_PERIOD then
    (s, .rateLimited)
  else
    let s1 := governorReset s
    match result with
    | none =>
        ({ s1 with requestCount := s1.requestCount + 1,
                   lastRequestTime := currentTime }, .emptyResult)
    | some str =>
        if str = "" then
          ({ s1 with requestCount := s1.requestCount + 1,
                     lastRequestTime := currentTime }, .emptyResult)
        else
          match jsonParse str with
          | some (.arr xs) =>
              let evs := xs.enum.map (fun p => spreadWithId p.2 (ids p.1))
              ({ events := evs,
                 checkedEvents := (evs.map recordId).toFinset,
                 requestCount := s1.requestCount + 1,
                 lastRequestTime := currentTime }, .success)
          | _ => (s1, .malformed)

/-- The effect hook that runs whenever the events list is replaced:
the selection set becomes the set of all ids of the new list. -/
def selectionReset (events : List RawRecord) : Finset String :=
  (events.map recordId).toFinset

/-- The checkbox handler: toggles membership of one id. -/
def handleCheckboxChange (checked : Finset String) (i : String) : Finset String :=
  if i ∈ checked then checked.erase i else insert i checked

/-- The Event record type of the component (the shape the code declares
for parsed events). -/
structure Event where
  id : String
  title : String
  date : String
  time : String
  recurrence : Option String := none
  alarm : Option Nat := none
deriving DecidableEq

/-- Removal of every dash, as the regex replace on the date does. -/
def removeDashes (s : String) : String := ⟨s.data.filter (fun c => c ≠ '-')⟩

/-- Removal of every colon, as the regex replace on the time does. -/
def removeColons (s : String) : String := ⟨s.data.filter (fun c => c ≠ ':')⟩

/-- The compact DTSTART value: dash-stripped date, a literal T,
colon-stripped time, and a trailing 00 seconds field. -/
def dtstartValue (date time : String) : String :=
  removeDashes date ++ "T" ++ removeColons time ++ "00"

/-- The recurrence line of one event block: emitted only when the
recurrence field is truthy (present and a non-empty string). -/
def rrulePart (e : Event) : String :=
  match e.recurrence with
  | some r => if r = "" then "" else "RRULE:" ++ r ++ "\n"
  | none => ""

/-- The alarm block of one event block: emitted whenever the alarm
field is not undefined, including a zero offset. -/
def alarmPart (e : Event) : String :=
  match e.alarm with
  | some a => "BEGIN:VALARM\nACTION:DISPLAY\nTRIGGER:-PT" ++ natToString a
      ++ "M\nEND:VALARM\n"
  | none => ""

/-- The VEVENT block emitted for one selected event. -/
def eventEntry (e : Event) : String :=
  "BEGIN:VEVENT\n" ++ ("SUMMARY:" ++ e.title ++ "\n")
    ++ ("DTSTART:" ++ dtstartValue e.date e.time ++ "\n")
    ++ rrulePart e ++ alarmPart e ++ "END:VEVENT\n"

def icsHeader : String :=
  "BEGIN:VCALENDAR\nVERSION:2.0\nPRODID:-//hacksw/handcal//NONSGML v1.0//EN\n"

def icsFooter : String := "END:VCALENDAR"

/-- The calendar serializer: walks the events in order, appending the
block of every event whose id is in the selection set, between the
fixed header and footer. -/
def generateICS (checkedEvents : Finset String) (events : List Event) : String :=
  (events.foldl
    (fun acc e => if e.id ∈ checkedEvents then acc ++ eventEntry e else acc)
    icsHeader) ++ icsFooter

/-- Concatenation of a list of strings (observer used to state the
shape of the serializer output). -/
def concatStrings : List String → String
  | [] => ""
  | s :: rest => s ++ concatStrings rest

/-- Split of a character list at newlines (observer used to state
which lines a document contains).  The result is never empty, so the
head default of headI is never consulted. -/
def splitLines : List Char → List (List Char)
  | [] => [[]]
  | c :: cs =>
      if c = '\n' then [] :: splitLines cs
      else (c :: (splitLines cs).headI) :: (splitLines cs).tail

/-- The lines of a document. -/
def icsLines (s : String) : List String :=
  (splitLines s.data).map (fun l => ⟨l⟩)

/-- Decidable list-prefix test (observer). -/
def isPrefixList : List Char → List Char → Bool
  | [], _ => true
  | _ :: _, [] => false
  | a :: as, b :: bs => a = b && isPrefixList as bs

/-- Whether a line starts with the RRULE property name. -/
def startsWithRRULE (l : List Char) : Bool := isPrefixList "RRULE:".data l

/-- Syntactic YYYY-MM-DD shape. -/
def validDate (s : String) : Bool :=
  match s.data with
  | [y1, y2, y3, y4, c1, m1, m2, c2, d1, d2] =>
      y1.isDigit && y2.isDigit && y3.isDigit && y4.isDigit &&
      c1 = '-' && m1.isDigit && m2.isDigit && c2 = '-' &&
      d1.isDigit && d2.isDigit
  | _ => false

/-- Syntactic HH:MM shape. -/
def validTime (s : String) : Bool :=
  match s.data with
  | [h1, h2, c1, m1, m2] =>
      h1.isDigit && h2.isDigit && c1 = ':' && m1.isDigit && m2.isDigit
  | _ => false

/-- Manual re-parse of a compact DTSTART value: split at the T
separator, re-insert the two dashes into the date part and the colon
into the time part, dropping the seconds field. -/
def reparseDTSTART (s : String) : String × String :=
  let ds := s.data.takeWhile (fun c => c ≠ 'T')
  let ts := (s.data.dropWhile (fun c => c ≠ 'T')).drop 1
  (⟨ds.take 4 ++ '-' :: ((ds.drop 4).take 2 ++ '-' :: (ds.drop 6).take 2)⟩,
   ⟨ts.take 2 ++ ':' :: (ts.drop 2).take 2⟩)

/-- The sublist of events whose id is in the selection set, in input
order. -/
def selectedEvents (checked : Finset String) (events : List Event) : List Event :=
  events.filter (fun e => e.id ∈ checked)

/-- Sample event carrying a recurrence rule and an alarm. -/
def evA : Event :=
  { id := "a1", title := "Standup", date := "2024-01-15", time := "09:30",
    recurrence := some "FREQ=WEEKLY;BYDAY=MO,WE,FR", alarm := some 10 }

/-- Sample event with only the required fields. -/
def evB : Event :=
  { id := "b2", title := "Dentist", date := "2024-02-03", time := "14:00" }

/-- Sample event with a zero alarm offset. -/
def evC : Event :=
  { id := "c3", title := "Gym", date := "2024-03-04", time := "07:00",
    alarm := some 0 }

/-- Concatenation of newline-terminated segments. -/
def joinNl : List (List Char) → List Char
  | [] => []
  | l :: ls => l ++ ('\n' :: joinNl ls)

/-- The newline-free line segments of the alarm block. -/
def alarmSegs (e : Event) : List (List Char) :=
  match e.alarm with
  | some a => ["BEGIN:VALARM".data, "ACTION:DISPLAY".data,
      ("TRIGGER:-PT" ++ natToString a ++ "M").data, "END:VALARM".data]
  | none => []

/-- The line segments of a VEVENT block that carries no recurrence
line. -/
def entrySegsNoRrule (e : Event) : List (List Char) :=
  "BEGIN:VEVENT".data :: ("SUMMARY:" ++ e.title).data
    :: ("DTSTART:" ++ dtstartValue e.date e.time).data
    :: (alarmSegs e ++ ["END:VEVENT".data])

/-- Sample event whose recurrence field is present but empty. -/
def evR : Event :=
  { id := "r0", title := "T", date := "2024-05-06", time := "08:00",
    recurrence := some "" }

/-- Sample worst-case run for the governor: repeated admitted calls at
one-millisecond intervals whose completion text never parses. -/
def chainFail : Nat → AppState × SubmitOutcome
  | 0 => handleSubmit (fun _ => none) (fun _ => "") ⟨[], ∅, 0, 0⟩ 0 "x" (some "bad")
  | n + 1 => handleSubmit (fun _ => none) (fun _ => "") (chainFail n).1 (n + 1) "x"
      (some "bad")

/-! ### Structure of the serializer output -/

theorem concatStrings_cons (s : String) (l : List String) :
    concatStrings (s :: l) = s ++ concatStrings l := rfl

theorem generateICS_foldl (checked : Finset String) (l : List Event) (acc : String) :
    l.foldl (fun acc e => if e.id ∈ checked then acc ++ eventEntry e else acc) acc
      = acc ++ concatStrings ((selectedEvents checked l).map eventEntry) := by
  induction l generalizing acc with
  | nil => simp [selectedEvents, concatStrings]
  | cons e rest ih =>
      by_cases h : e.id ∈ checked
      · simp [selectedEvents, List.filter_cons, h, ih, concatStrings,
          String.append_assoc]
      · simp [selectedEvents, List.filter_cons, h, ih]

theorem generateICS_eq (checked : Finset String) (events : List Event) :
    generateICS checked events
      = icsHeader ++ concatStrings ((selectedEvents checked events).map eventEntry)
          ++ icsFooter := by
  rw [generateICS, generateICS_foldl]

theorem selectedEvents_length (checked : Finset String) (events : List Event)
    (h : (events.map Event.id).Nodup) :
    (selectedEvents checked events).length
      = ((events.map Event.id).toFinset ∩ checked).card := by
  have h1 : (selectedEvents checked events).length
      = (events.map Event.id).countP (fun i => decide (i ∈ checked)) := by
    rw [selectedEvents, ← List.countP_eq_length_filter, List.countP_map]
    rfl
  rw [h1, List.countP_eq_length_filter,
    ← List.toFinset_card_of_nodup (h.filter _), List.toFinset_filter]
  congr 1
  simp [Finset.filter_mem_eq_inter]

/-- C3: generateICS emits one VEVENT entry block per event whose id is
in the selection set, in the relative order of the input list and with
no reordering (the document is the header, then the blocks of the
selected events in input order, then the footer); when the ids are
pairwise distinct the number of blocks is the cardinality of the
intersection of the selection set with the set of ids; with no event
selected the output is exactly the header followed by the footer. -/
theorem C3_generateICS_blocks (checked : Finset String) (events : List Event) :
    generateICS checked events
        = icsHeader ++ concatStrings ((selectedEvents checked events).map eventEntry)
            ++ icsFooter
    ∧ ((events.map Event.id).Nodup →
        (selectedEvents checked events).length
          = ((events.map Event.id).toFinset ∩ checked).card)
    ∧ ((∀ e ∈ events, e.id ∉ checked) →
        generateICS checked events = icsHeader ++ icsFooter) := by
  refine ⟨generateICS_eq checked events, selectedEvents_length checked events, ?_⟩
  intro hnone
  have hsel : selectedEvents checked events = [] := by
    rw [selectedEvents, List.filter_eq_nil]
    intro e he
    simpa using hnone e he
  rw [generateICS_eq, hsel]
  simp [concatStrings]

/-- Witness for C3 at concrete inputs. -/
theorem C3_generateICS_blocks_witness :
    ((selectedEvents {"a1"} [evA, evB]).length
        = (([evA, evB].map Event.id).toFinset ∩ {"a1"}).card)
    ∧ generateICS ∅ [evA, evB] = icsHeader ++ icsFooter := by
  constructor
  · exact (C3_generateICS_blocks {"a1"} [evA, evB]).2.1 (by decide)
  · exact (C3_generateICS_blocks ∅ [evA, evB]).2.2 (by simp)

/-! ### Lines of a document -/

theorem splitLines_ne_nil (l : List Char) : splitLines l ≠ [] := by
  cases l with
  | nil => simp [splitLines]
  | cons c cs =>
      simp only [splitLines]
      split <;> simp

theorem splitLines_append_newline (u rest : List Char) (h : ∀ c ∈ u, c ≠ '\n') :
    splitLines (u ++ ('\n' :: rest)) = u :: splitLines rest := by
  induction u with
  | nil => simp [splitLines]
  | cons c u ih =>
      have hc : c ≠ '\n' := h c (by simp)
      have ih' := ih (fun x hx => h x (by simp [hx]))
      show splitLines (c :: (u ++ ('\n' :: rest))) = (c :: u) :: splitLines rest
      rw [splitLines, if_neg hc, ih']
      simp

theorem mem_tail_splitLines (xs ys zs : List Char) (h : ∀ c ∈ ys, c ≠ '\n') :
    ys ∈ (splitLines (xs ++ ('\n' :: (ys ++ ('\n' :: zs))))).tail := by
  induction xs with
  | nil =>
      rw [List.nil_append,
        show splitLines ('\n' :: (ys ++ ('\n' :: zs)))
          = [] :: splitLines (ys ++ ('\n' :: zs)) from by rw [splitLines, if_pos rfl],
        List.tail_cons, splitLines_append_newline ys zs h]
      exact List.mem_cons_self ys _
  | cons c xs ih =>
      rw [List.cons_append]
      by_cases hc : c = '\n'
      · subst hc
        rw [show splitLines ('\n' :: (xs ++ ('\n' :: (ys ++ ('\n' :: zs)))))
            = [] :: splitLines (xs ++ ('\n' :: (ys ++ ('\n' :: zs)))) from by
              rw [splitLines, if_pos rfl],
          List.tail_cons]
        exact List.mem_of_mem_tail ih
      · rw [show splitLines (c :: (xs ++ ('\n' :: (ys ++ ('\n' :: zs)))))
            = (c :: (splitLines (xs ++ ('\n' :: (ys ++ ('\n' :: zs))))).headI)
                :: (splitLines (xs ++ ('\n' :: (ys ++ ('\n' :: zs))))).tail from by
              rw [splitLines, if_neg hc],
          List.tail_cons]
        exact ih

theorem mem_splitLines (xs ys zs : List Char) (h : ∀ c ∈ ys, c ≠ '\n') :
    ys ∈ splitLines (xs ++ ('\n' :: (ys ++ ('\n' :: zs)))) :=
  List.mem_of_mem_tail (mem_tail_splitLines xs ys zs h)

/-! ### Occurrence of an entry inside the document -/

theorem concatStrings_mem_decomp (l : List String) (s : String) (hs : s ∈ l) :
    ∃ pre post, concatStrings l = pre ++ s ++ post := by
  induction l with
  | nil => cases hs
  | cons a rest ih =>
      rcases List.mem_cons.1 hs with rfl | hmem
      · exact ⟨"", concatStrings rest, by
          rw [concatStrings_cons, String.empty_append]⟩
      · obtain ⟨p, q, hpq⟩ := ih hmem
        exact ⟨a ++ p, q, by
          rw [concatStrings_cons, hpq]
          simp [String.append_assoc]⟩

theorem mem_selectedEvents (checked : Finset String) (events : List Event)
    (e : Event) (he : e ∈ events) (hsel : e.id ∈ checked) :
    e ∈ selectedEvents checked events := by
  rw [selectedEvents, List.mem_filter]
  exact ⟨he, by simpa using hsel⟩

theorem generateICS_contains_entry (checked : Finset String) (events : List Event)
    (e : Event) (he : e ∈ events) (hsel : e.id ∈ checked) :
    ∃ pre post, generateICS checked events = pre ++ eventEntry e ++ post := by
  obtain ⟨p, q, hpq⟩ := concatStrings_mem_decomp
    ((selectedEvents checked events).map eventEntry) (eventEntry e)
    (List.mem_map_of_mem eventEntry (mem_selectedEvents checked events e he hsel))
  refine ⟨icsHeader ++ p, q ++ icsFooter, ?_⟩
  rw [generateICS_eq, hpq]
  simp [String.append_assoc]

/-- C10: a selected event whose alarm field is present and equal to 0
still gets a full VALARM block, because the presence test compares the
field against undefined instead of testing truthiness: the alarm part
of its VEVENT block is exactly BEGIN:VALARM, ACTION:DISPLAY,
TRIGGER:-PT0M, END:VALARM, and this block occurs in the generateICS
output immediately before the END:VEVENT line of that event. -/
theorem C10_alarm_zero (checked : Finset String) (events : List Event)
    (e : Event) (he : e ∈ events) (hsel : e.id ∈ checked) (ha : e.alarm = some 0) :
    alarmPart e = "BEGIN:VALARM\nACTION:DISPLAY\nTRIGGER:-PT0M\nEND:VALARM\n"
    ∧ ∃ pre post, generateICS checked events
        = pre ++ "BEGIN:VALARM\nACTION:DISPLAY\nTRIGGER:-PT0M\nEND:VALARM\nEND:VEVENT\n"
            ++ post := by
  have halarm : alarmPart e
      = "BEGIN:VALARM\nACTION:DISPLAY\nTRIGGER:-PT0M\nEND:VALARM\n" := by
    simp only [alarmPart, ha]
    decide
  refine ⟨halarm, ?_⟩
  obtain ⟨p, q, hpq⟩ := generateICS_contains_entry checked events e he hsel
  refine ⟨p ++ ("BEGIN:VEVENT\n" ++ ("SUMMARY:" ++ e.title ++ "\n")
    ++ ("DTSTART:" ++ dtstartValue e.date e.time ++ "\n") ++ rrulePart e), q, ?_⟩
  rw [show ("BEGIN:VALARM\nACTION:DISPLAY\nTRIGGER:-PT0M\nEND:VALARM\nEND:VEVENT\n"
      : String)
    = "BEGIN:VALARM\nACTION:DISPLAY\nTRIGGER:-PT0M\nEND:VALARM\n" ++ "END:VEVENT\n"
    from by decide]
  rw [hpq, eventEntry, halarm]
  simp [String.append_assoc]

/-- Witness for C10 at a concrete event with alarm 0. -/
theorem C10_alarm_zero_witness :
    alarmPart evC = "BEGIN:VALARM\nACTION:DISPLAY\nTRIGGER:-PT0M\nEND:VALARM\n"
    ∧ ∃ pre post, generateICS {"c3"} [evC]
        = pre ++ "BEGIN:VALARM\nACTION:DISPLAY\nTRIGGER:-PT0M\nEND:VALARM\nEND:VEVENT\n"
            ++ post :=
  C10_alarm_zero {"c3"} [evC] evC (List.mem_cons_self evC []) (by decide) rfl

/-! ### Characters of rendered numbers -/

theorem digitChar_bounds (m : Nat) (hm : m < 10) :
    48 ≤ (Char.ofNat (48 + m)).toNat ∧ (Char.ofNat (48 + m)).toNat ≤ 57 := by
  interval_cases m <;> decide

theorem natDigitsGo_bounds (fuel : Nat) : ∀ n, ∀ c ∈ natDigitsGo fuel n,
    48 ≤ c.toNat ∧ c.toNat ≤ 57 := by
  induction fuel with
  | zero => intro n c hc; simp [natDigitsGo] at hc
  | succ fuel ih =>
      intro n c hc
      rw [natDigitsGo] at hc
      split at hc
      · rw [List.mem_singleton] at hc
        subst hc
        exact digitChar_bounds n (by omega)
      · rcases List.mem_append.1 hc with h1 | h2
        · exact ih _ c h1
        · rw [List.mem_singleton] at h2
          subst h2
          exact digitChar_bounds (n % 10) (Nat.mod_lt _ (by omega))

theorem natToString_chars (n : Nat) : ∀ c ∈ (natToString n).data,
    48 ≤ c.toNat ∧ c.toNat ≤ 57 :=
  natDigitsGo_bounds (n + 1) n

theorem natToString_no_newline (n : Nat) : ∀ c ∈ (natToString n).data, c ≠ '\n' := by
  intro c hc he
  subst he
  have := natToString_chars n _ hc
  revert this
  decide

/-! ### Line structure of one event block -/

theorem splitLines_joinNl (segs : List (List Char))
    (h : ∀ l ∈ segs, ∀ c ∈ l, c ≠ '\n') :
    splitLines (joinNl segs) = segs ++ [[]] := by
  induction segs with
  | nil => simp [joinNl, splitLines]
  | cons l ls ih =>
      rw [joinNl, splitLines_append_newline l _ (h l (by simp)),
        ih (fun x hx => h x (by simp [hx]))]
      rfl

theorem data_nl : ("\n" : String).data = ['\n'] := by decide

theorem data_begin_vevent :
    ("BEGIN:VEVENT\n" : String).data = "BEGIN:VEVENT".data ++ ['\n'] := by decide

theorem data_end_vevent :
    ("END:VEVENT\n" : String).data = "END:VEVENT".data ++ ['\n'] := by decide

theorem data_valarm_head :
    ("BEGIN:VALARM\nACTION:DISPLAY\nTRIGGER:-PT" : String).data
      = "BEGIN:VALARM".data ++ ['\n']
          ++ ("ACTION:DISPLAY".data ++ (['\n'] ++ "TRIGGER:-PT".data)) := by decide

theorem data_valarm_tail :
    ("M\nEND:VALARM\n" : String).data
      = "M".data ++ (['\n'] ++ ("END:VALARM".data ++ ['\n'])) := by decide

theorem eventEntry_data_noRrule (e : Event) (hr : rrulePart e = "") :
    (eventEntry e).data = joinNl (entrySegsNoRrule e) := by
  rcases ha : e.alarm with _ | a
  · simp only [eventEntry, entrySegsNoRrule, alarmSegs, alarmPart, ha, hr, joinNl,
      String.data_append, data_nl, data_begin_vevent, data_end_vevent,
      String.append_empty, List.append_assoc, List.cons_append,
      List.singleton_append, List.nil_append, List.append_nil]
  · simp only [eventEntry, entrySegsNoRrule, alarmSegs, alarmPart, ha, hr, joinNl,
      String.data_append, data_nl, data_begin_vevent, data_end_vevent,
      data_valarm_head, data_valarm_tail,
      String.append_empty, List.append_assoc, List.cons_append,
      List.singleton_append, List.nil_append, List.append_nil]

theorem no_newline_of_all (l : List Char)
    (h : l.all (fun c => decide (c ≠ '\n')) = true) : ∀ c ∈ l, c ≠ '\n' := by
  intro c hc
  exact of_decide_eq_true (List.all_eq_true.1 h c hc)

theorem removeDashes_chars (s : String) : ∀ c ∈ (removeDashes s).data, c ∈ s.data := by
  intro c hc
  exact List.mem_of_mem_filter hc

theorem removeColons_chars (s : String) : ∀ c ∈ (removeColons s).data, c ∈ s.data := by
  intro c hc
  exact List.mem_of_mem_filter hc

theorem dtstartValue_no_newline (date time : String)
    (hd : ∀ c ∈ date.data, c ≠ '\n') (ht : ∀ c ∈ time.data, c ≠ '\n') :
    ∀ c ∈ (dtstartValue date time).data, c ≠ '\n' := by
  intro c hc
  simp only [dtstartValue, String.data_append] at hc
  rcases List.mem_append.1 hc with h1 | h2
  · rcases List.mem_append.1 h1 with h3 | h4
    · rcases List.mem_append.1 h3 with h5 | h6
      · exact hd c (removeDashes_chars date c h5)
      · exact no_newline_of_all _ (by decide) c h6
    · exact ht c (removeColons_chars time c h4)
  · exact no_newline_of_all _ (by decide) c h2

theorem entrySegsNoRrule_no_newline (e : Event)
    (ht : ∀ c ∈ e.title.data, c ≠ '\n') (hd : ∀ c ∈ e.date.data, c ≠ '\n')
    (htm : ∀ c ∈ e.time.data, c ≠ '\n') :
    ∀ l ∈ entrySegsNoRrule e, ∀ c ∈ l, c ≠ '\n' := by
  intro l hl
  rw [entrySegsNoRrule] at hl
  rcases List.mem_cons.1 hl with rfl | hl
  · exact no_newline_of_all _ (by decide)
  rcases List.mem_cons.1 hl with rfl | hl
  · intro c hc
    rw [String.data_append] at hc
    rcases List.mem_append.1 hc with h1 | h2
    · exact no_newline_of_all _ (by decide) c h1
    · exact ht c h2
  rcases List.mem_cons.1 hl with rfl | hl
  · intro c hc
    rw [String.data_append] at hc
    rcases List.mem_append.1 hc with h1 | h2
    · exact no_newline_of_all _ (by decide) c h1
    · exact dtstartValue_no_newline e.date e.time hd htm c h2
  rcases List.mem_append.1 hl with hl | hl
  · rw [alarmSegs] at hl
    rcases ha : e.alarm with _ | a <;> rw [ha] at hl
    · simp at hl
    · rcases List.mem_cons.1 hl with rfl | hl
      · exact no_newline_of_all _ (by decide)
      rcases List.mem_cons.1 hl with rfl | hl
      · exact no_newline_of_all _ (by decide)
      rcases List.mem_cons.1 hl with rfl | hl
      · intro c hc
        simp only [String.data_append] at hc
        rcases List.mem_append.1 hc with h1 | h2
        · rcases List.mem_append.1 h1 with h3 | h4
          · exact no_newline_of_all _ (by decide) c h3
          · exact natToString_no_newline a c h4
        · exact no_newline_of_all _ (by decide) c h2
      rcases List.mem_cons.1 hl with rfl | hl
      · exact no_newline_of_all _ (by decide)
      · simp at hl
  · rw [List.mem_singleton] at hl
    subst hl
    exact no_newline_of_all _ (by decide)

theorem startsWithRRULE_cons_ne (c : Char) (l : List Char) (hc : c ≠ 'R') :
    startsWithRRULE (c :: l) = false := by
  rw [startsWithRRULE,
    show ("RRULE:" : String).data = 'R' :: "RULE:".data from by decide,
    isPrefixList]
  simp [Ne.symm hc]

theorem startsWithRRULE_nil : startsWithRRULE [] = false := by decide

theorem entrySegs_no_rrule_line (e : Event) :
    ∀ l ∈ entrySegsNoRrule e, startsWithRRULE l = false := by
  intro l hl
  rw [entrySegsNoRrule] at hl
  rcases List.mem_cons.1 hl with rfl | hl
  · decide
  rcases List.mem_cons.1 hl with rfl | hl
  · rw [String.data_append,
      show ("SUMMARY:" : String).data = 'S' :: "UMMARY:".data from by decide,
      List.cons_append]
    exact startsWithRRULE_cons_ne _ _ (by decide)
  rcases List.mem_cons.1 hl with rfl | hl
  · rw [String.data_append,
      show ("DTSTART:" : String).data = 'D' :: "TSTART:".data from by decide,
      List.cons_append]
    exact startsWithRRULE_cons_ne _ _ (by decide)
  rcases List.mem_append.1 hl with hl | hl
  · rw [alarmSegs] at hl
    rcases ha : e.alarm with _ | a <;> rw [ha] at hl
    · simp at hl
    · rcases List.mem_cons.1 hl with rfl | hl
      · decide
      rcases List.mem_cons.1 hl with rfl | hl
      · decide
      rcases List.mem_cons.1 hl with rfl | hl
      · rw [String.data_append, String.data_append,
          show ("TRIGGER:-PT" : String).data = 'T' :: "RIGGER:-PT".data from by
            decide,
          List.cons_append, List.cons_append]
        exact startsWithRRULE_cons_ne _ _ (by decide)
      rcases List.mem_cons.1 hl with rfl | hl
      · decide
      · simp at hl
  · rw [List.mem_singleton] at hl
    subst hl
    decide

/-- C6 (amended): when the recurrence field of a selected event is
present, non-empty and newline-free, the generateICS output contains
the line RRULE: followed by the recurrence string verbatim; when the
recurrence field is absent, or present but the empty string (which the
truthiness test also treats as absent), no line of the event's VEVENT
block starts with RRULE:, provided the title, date and time carry no
newline. -/
theorem C6_rrule_line (checked : Finset String) (events : List Event) (e : Event) :
    (e ∈ events → e.id ∈ checked → ∀ r, e.recurrence = some r → r ≠ "" →
        (∀ c ∈ r.data, c ≠ '\n') →
        ("RRULE:" ++ r) ∈ icsLines (generateICS checked events))
    ∧ ((e.recurrence = none ∨ e.recurrence = some "") →
        (∀ c ∈ e.title.data, c ≠ '\n') → (∀ c ∈ e.date.data, c ≠ '\n') →
        (∀ c ∈ e.time.data, c ≠ '\n') →
        ∀ l ∈ splitLines (eventEntry e).data, startsWithRRULE l = false) := by
  constructor
  · intro he hsel r hrec hrne hrnl
    have hrp : rrulePart e = "RRULE:" ++ r ++ "\n" := by
      simp only [rrulePart, hrec]
      rw [if_neg hrne]
    obtain ⟨p, q, hpq⟩ := generateICS_contains_entry checked events e he hsel
    have hdoc : generateICS checked events
        = (p ++ ("BEGIN:VEVENT\n" ++ ("SUMMARY:" ++ e.title ++ "\n")
              ++ ("DTSTART:" ++ dtstartValue e.date e.time)))
          ++ "\n" ++ ("RRULE:" ++ r) ++ "\n"
          ++ (alarmPart e ++ "END:VEVENT\n" ++ q) := by
      rw [hpq, eventEntry, hrp]
      simp [String.append_assoc]
    have hdata : (generateICS checked events).data
        = (p ++ ("BEGIN:VEVENT\n" ++ ("SUMMARY:" ++ e.title ++ "\n")
              ++ ("DTSTART:" ++ dtstartValue e.date e.time))).data
          ++ ('\n' :: (("RRULE:" ++ r).data
              ++ ('\n' :: (alarmPart e ++ "END:VEVENT\n" ++ q).data))) := by
      rw [hdoc]
      simp [String.data_append, data_nl]
    have hmem := mem_splitLines
      ((p ++ ("BEGIN:VEVENT\n" ++ ("SUMMARY:" ++ e.title ++ "\n")
          ++ ("DTSTART:" ++ dtstartValue e.date e.time))).data)
      (("RRULE:" ++ r).data)
      ((alarmPart e ++ "END:VEVENT\n" ++ q).data)
      (by
        intro c hc
        rw [String.data_append] at hc
        rcases List.mem_append.1 hc with h1 | h2
        · exact no_newline_of_all _ (by decide) c h1
        · exact hrnl c h2)
    rw [← hdata] at hmem
    have hline : String.mk (("RRULE:" ++ r).data)
        ∈ icsLines (generateICS checked events) :=
      List.mem_map_of_mem _ hmem
    exact hline
  · intro hrec ht hd htm
    have hrp : rrulePart e = "" := by
      rcases hrec with h | h <;> simp [rrulePart, h]
    rw [eventEntry_data_noRrule e hrp,
      splitLines_joinNl _ (entrySegsNoRrule_no_newline e ht hd htm)]
    intro l hl
    rcases List.mem_append.1 hl with hl | hl
    · exact entrySegs_no_rrule_line e l hl
    · rw [List.mem_singleton] at hl
      subst hl
      exact startsWithRRULE_nil

/-- Witness for C6 at concrete inputs: the sample weekly event yields
its RRULE line verbatim, and the block of an event without recurrence
has no RRULE line. -/
theorem C6_rrule_line_witness :
    ("RRULE:" ++ "FREQ=WEEKLY;BYDAY=MO,WE,FR")
        ∈ icsLines (generateICS {"a1"} [evA, evB])
    ∧ ∀ l ∈ splitLines (eventEntry evB).data, startsWithRRULE l = false := by
  constructor
  · exact (C6_rrule_line {"a1"} [evA, evB] evA).1 (by simp) (by decide)
      "FREQ=WEEKLY;BYDAY=MO,WE,FR" rfl (by decide)
      (no_newline_of_all _ (by decide))
  · exact (C6_rrule_line {"a1"} [evA, evB] evB).2 (Or.inl rfl)
      (no_newline_of_all _ (by decide)) (no_newline_of_all _ (by decide))
      (no_newline_of_all _ (by decide))

/-- Counterexample to C6 as stated: this event's recurrence field is
present (it is some empty string), yet the document for it contains no
line consisting of RRULE: followed by that recurrence string, because
the code tests the field for truthiness rather than presence. -/
theorem C6_rrule_line_counterexample :
    evR.recurrence = some ""
    ∧ ("RRULE:" ++ "") ∉ icsLines (generateICS {"r0"} [evR]) := by
  constructor
  · rfl
  · decide

/-! ### Round trip of the DTSTART value -/

theorem isDigit_ne_of (c : Char) (h : c.isDigit = true) (ch : Char)
    (hch : ch.isDigit = false) : c ≠ ch := by
  intro he
  rw [he, hch] at h
  cases h

theorem validDate_inv (s : String) (h : validDate s = true) :
    ∃ y1 y2 y3 y4 m1 m2 d1 d2,
      s.data = [y1, y2, y3, y4, '-', m1, m2, '-', d1, d2]
      ∧ y1.isDigit = true ∧ y2.isDigit = true ∧ y3.isDigit = true
      ∧ y4.isDigit = true ∧ m1.isDigit = true ∧ m2.isDigit = true
      ∧ d1.isDigit = true ∧ d2.isDigit = true := by
  unfold validDate at h
  split at h
  next y1 y2 y3 y4 c1 m1 m2 c2 d1 d2 heq =>
    simp only [Bool.and_eq_true, decide_eq_true_eq] at h
    obtain ⟨⟨⟨⟨⟨⟨⟨⟨⟨h1, h2⟩, h3⟩, h4⟩, hc1⟩, h5⟩, h6⟩, hc2⟩, h7⟩, h8⟩ := h
    subst hc1
    subst hc2
    exact ⟨y1, y2, y3, y4, m1, m2, d1, d2, heq, h1, h2, h3, h4, h5, h6, h7, h8⟩
  next =>
    exact absurd h (by simp)

theorem validTime_inv (s : String) (h : validTime s = true) :
    ∃ h1 h2 n1 n2,
      s.data = [h1, h2, ':', n1, n2]
      ∧ h1.isDigit = true ∧ h2.isDigit = true
      ∧ n1.isDigit = true ∧ n2.isDigit = true := by
  unfold validTime at h
  split at h
  next h1 h2 c1 n1 n2 heq =>
    simp only [Bool.and_eq_true, decide_eq_true_eq] at h
    obtain ⟨⟨⟨⟨k1, k2⟩, hc1⟩, k3⟩, k4⟩ := h
    subst hc1
    exact ⟨h1, h2, n1, n2, heq, k1, k2, k3, k4⟩
  next =>
    exact absurd h (by simp)

theorem data_T : ("T" : String).data = ['T'] := by decide

theorem data_00 : ("00" : String).data = ['0', '0'] := by decide

/-- C7: for a date of syntactically valid YYYY-MM-DD shape and a time
of syntactically valid HH:MM shape, re-parsing the compact DTSTART
value that generateICS emits (splitting at the T separator and
re-inserting the dashes and the colon) recovers exactly the original
date and time strings. -/
theorem C7_dtstart_roundtrip (date time : String)
    (hd : validDate date = true) (ht : validTime time = true) :
    reparseDTSTART (dtstartValue date time) = (date, time) := by
  obtain ⟨y1, y2, y3, y4, m1, m2, d1, d2, hds, hy1, hy2, hy3, hy4, hm1, hm2,
    hd1, hd2⟩ := validDate_inv date hd
  obtain ⟨h1, h2, n1, n2, hts, hh1, hh2, hn1, hn2⟩ := validTime_inv time ht
  have hrd : (removeDashes date).data = [y1, y2, y3, y4, m1, m2, d1, d2] := by
    simp [removeDashes, hds, isDigit_ne_of y1 hy1 '-' (by decide),
      isDigit_ne_of y2 hy2 '-' (by decide), isDigit_ne_of y3 hy3 '-' (by decide),
      isDigit_ne_of y4 hy4 '-' (by decide), isDigit_ne_of m1 hm1 '-' (by decide),
      isDigit_ne_of m2 hm2 '-' (by decide), isDigit_ne_of d1 hd1 '-' (by decide),
      isDigit_ne_of d2 hd2 '-' (by decide)]
  have hrc : (removeColons time).data = [h1, h2, n1, n2] := by
    simp [removeColons, hts, isDigit_ne_of h1 hh1 ':' (by decide),
      isDigit_ne_of h2 hh2 ':' (by decide), isDigit_ne_of n1 hn1 ':' (by decide),
      isDigit_ne_of n2 hn2 ':' (by decide)]
  have hsdata : (dtstartValue date time).data
      = [y1, y2, y3, y4, m1, m2, d1, d2, 'T', h1, h2, n1, n2, '0', '0'] := by
    simp [dtstartValue, String.data_append, hrd, hrc, data_T, data_00]
  have hfst : (reparseDTSTART (dtstartValue date time)).1 = date := by
    apply String.ext
    rw [hds]
    simp [reparseDTSTART, hsdata, isDigit_ne_of y1 hy1 'T' (by decide),
      isDigit_ne_of y2 hy2 'T' (by decide), isDigit_ne_of y3 hy3 'T' (by decide),
      isDigit_ne_of y4 hy4 'T' (by decide), isDigit_ne_of m1 hm1 'T' (by decide),
      isDigit_ne_of m2 hm2 'T' (by decide), isDigit_ne_of d1 hd1 'T' (by decide),
      isDigit_ne_of d2 hd2 'T' (by decide)]
  have hsnd : (reparseDTSTART (dtstartValue date time)).2 = time := by
    apply String.ext
    rw [hts]
    simp [reparseDTSTART, hsdata, isDigit_ne_of y1 hy1 'T' (by decide),
      isDigit_ne_of y2 hy2 'T' (by decide), isDigit_ne_of y3 hy3 'T' (by decide),
      isDigit_ne_of y4 hy4 'T' (by decide), isDigit_ne_of m1 hm1 'T' (by decide),
      isDigit_ne_of m2 hm2 'T' (by decide), isDigit_ne_of d1 hd1 'T' (by decide),
      isDigit_ne_of d2 hd2 'T' (by decide)]
  exact Prod.ext hfst hsnd

/-- Witness for C7 at a concrete date and time. -/
theorem C7_dtstart_roundtrip_witness :
    reparseDTSTART (dtstartValue "2024-01-15" "13:45") = ("2024-01-15", "13:45") :=
  C7_dtstart_roundtrip "2024-01-15" "13:45" (by decide) (by decide)

/-! ### Record construction in the parse stage -/

theorem lookupField_setField_same (r : RawRecord) (k : String) (v : Json) :
    lookupField (setField r k v) k = some v := by
  induction r with
  | nil => simp [setField, lookupField]
  | cons p rest ih =>
      obtain ⟨k', v'⟩ := p
      by_cases h : k' = k
      · subst h
        simp [setField, lookupField]
      · simp [setField, lookupField, h, ih]

theorem lookupField_setField_ne (r : RawRecord) (k k2 : String) (v : Json)
    (hne : k ≠ k2) : lookupField (setField r k v) k2 = lookupField r k2 := by
  induction r with
  | nil => simp [setField, lookupField, hne]
  | cons p rest ih =>
      obtain ⟨k', v'⟩ := p
      by_cases h : k' = k
      · subst h
        simp [setField, lookupField, hne]
      · by_cases h2 : k' = k2
        · subst h2
          simp [setField, lookupField, h]
        · simp [setField, lookupField, h, h2, ih]

theorem recordId_spreadWithId (e : Json) (i : String) :
    recordId (spreadWithId e i) = i := by
  rw [recordId, spreadWithId, lookupField_setField_same]

theorem lookupField_spreadWithId_ne (e : Json) (i : String) (k : String)
    (hk : k ≠ "id") :
    lookupField (spreadWithId e i) k = lookupField (jsonSpread e) k :=
  lookupField_setField_ne _ _ _ _ (Ne.symm hk)

/-! ### Branch reductions of handleSubmit -/

theorem governorReset_events (s : AppState) :
    (governorReset s).events = s.events := by
  rw [governorReset]
  split <;> rfl

theorem governorReset_checked (s : AppState) :
    (governorReset s).checkedEvents = s.checkedEvents := by
  rw [governorReset]
  split <;> rfl

theorem governorReset_last (s : AppState) :
    (governorReset s).lastRequestTime = s.lastRequestTime := by
  rw [governorReset]
  split <;> rfl

theorem handleSubmit_success (jsonParse : String → Option Json) (ids : Nat → String)
    (s : AppState) (t : Nat) (text str : String) (xs : List Json)
    (htext : ¬text.length > MAX_TEXT_LENGTH)
    (hgate : ¬(MAX_REQUESTS_PER_MINUTE ≤ s.requestCount ∧
        t - s.lastRequestTime < COOLDOWN_PERIOD))
    (hne : str ≠ "") (hp : jsonParse str = some (Json.arr xs)) :
    handleSubmit jsonParse ids s t text (some str)
      = ({ events := xs.enum.map (fun p => spreadWithId p.2 (ids p.1)),
           checkedEvents := ((xs.enum.map
              (fun p => spreadWithId p.2 (ids p.1))).map recordId).toFinset,
           requestCount := (governorReset s).requestCount + 1,
           lastRequestTime := t }, .success) := by
  rw [handleSubmit, if_neg htext, if_neg hgate]
  simp only [hp, if_neg hne]

theorem handleSubmit_parse_throw (jsonParse : String → Option Json)
    (ids : Nat → String) (s : AppState) (t : Nat) (text str : String)
    (htext : ¬text.length > MAX_TEXT_LENGTH)
    (hgate : ¬(MAX_REQUESTS_PER_MINUTE ≤ s.requestCount ∧
        t - s.lastRequestTime < COOLDOWN_PERIOD))
    (hne : str ≠ "") (hp : jsonParse str = none) :
    handleSubmit jsonParse ids s t text (some str)
      = (governorReset s, .malformed) := by
  rw [handleSubmit, if_neg htext, if_neg hgate]
  simp only [hp, if_neg hne]

theorem handleSubmit_nonarray (jsonParse : String → Option Json)
    (ids : Nat → String) (s : AppState) (t : Nat) (text str : String) (j : Json)
    (htext : ¬text.length > MAX_TEXT_LENGTH)
    (hgate : ¬(MAX_REQUESTS_PER_MINUTE ≤ s.requestCount ∧
        t - s.lastRequestTime < COOLDOWN_PERIOD))
    (hne : str ≠ "") (hp : jsonParse str = some j) (hj : ∀ xs, j ≠ Json.arr xs) :
    handleSubmit jsonParse ids s t text (some str)
      = (governorReset s, .malformed) := by
  rw [handleSubmit, if_neg htext, if_neg hgate]
  simp only [hp, if_neg hne]
  cases j with
  | arr xs => exact absurd rfl (hj xs)
  | null => rfl
  | bool b => rfl
  | num n => rfl
  | str s => rfl
  | obj fields => rfl

/-- C9: when a successful extraction replaces the event list, the
effect hook resets the selection set to exactly the ids of all events
of the new list (all selected); the only other mutation of the
selection set, the checkbox toggle, flips the membership of the
toggled id and leaves the membership of every other id unchanged. -/
theorem C9_selection_lifecycle (jsonParse : String → Option Json)
    (ids : Nat → String) (s : AppState) (t : Nat) (text str : String)
    (xs : List Json) (htext : ¬text.length > MAX_TEXT_LENGTH)
    (hgate : ¬(MAX_REQUESTS_PER_MINUTE ≤ s.requestCount ∧
        t - s.lastRequestTime < COOLDOWN_PERIOD))
    (hne : str ≠ "") (hp : jsonParse str = some (Json.arr xs)) :
    (handleSubmit jsonParse ids s t text (some str)).1.checkedEvents
        = selectionReset (handleSubmit jsonParse ids s t text (some str)).1.events
    ∧ ∀ (checked : Finset String) (i j : String),
        (i ∈ handleCheckboxChange checked i ↔ i ∉ checked)
        ∧ (j ≠ i → (j ∈ handleCheckboxChange checked i ↔ j ∈ checked)) := by
  constructor
  · rw [handleSubmit_success jsonParse ids s t text str xs htext hgate hne hp]
    rfl
  · intro checked i j
    constructor
    · by_cases h : i ∈ checked <;>
        simp [handleCheckboxChange, h]
    · intro hij
      by_cases h : i ∈ checked <;>
        simp [handleCheckboxChange, h, Finset.mem_erase, Finset.mem_insert, hij]

/-- Witness for C9 at concrete inputs. -/
theorem C9_selection_lifecycle_witness :
    (handleSubmit (fun _ => some (Json.arr [Json.obj []])) (fun _ => "w1")
        ⟨[], ∅, 0, 0⟩ 0 "x" (some "j")).1.checkedEvents
      = selectionReset (handleSubmit (fun _ => some (Json.arr [Json.obj []]))
          (fun _ => "w1") ⟨[], ∅, 0, 0⟩ 0 "x" (some "j")).1.events
    ∧ ∀ (checked : Finset String) (i j : String),
        (i ∈ handleCheckboxChange checked i ↔ i ∉ checked)
        ∧ (j ≠ i → (j ∈ handleCheckboxChange checked i ↔ j ∈ checked)) :=
  C9_selection_lifecycle (fun _ => some (Json.arr [Json.obj []])) (fun _ => "w1")
    ⟨[], ∅, 0, 0⟩ 0 "x" "j" [Json.obj []] (by decide) (by decide)
    (by decide) rfl

/-- C2 (amended): an admitted call whose non-empty completion text is
not valid JSON, or parses to a value that is not an array, fails with
the malformed-response error, stores no events (no partial output) and
leaves the displayed event list and the selection set exactly as they
were.  (An empty completion text, also not valid JSON, instead takes
the silent empty-result branch: see the counterexample.) -/
theorem C2_malformed_preserves (jsonParse : String → Option Json)
    (ids : Nat → String) (s : AppState) (t : Nat) (text str : String)
    (htext : ¬text.length > MAX_TEXT_LENGTH)
    (hgate : ¬(MAX_REQUESTS_PER_MINUTE ≤ s.requestCount ∧
        t - s.lastRequestTime < COOLDOWN_PERIOD))
    (hne : str ≠ "")
    (hp : jsonParse str = none
        ∨ ∃ j, jsonParse str = some j ∧ ∀ xs, j ≠ Json.arr xs) :
    (handleSubmit jsonParse ids s t text (some str)).2 = SubmitOutcome.malformed
    ∧ (handleSubmit jsonParse ids s t text (some str)).1.events = s.events
    ∧ (handleSubmit jsonParse ids s t text (some str)).1.checkedEvents
        = s.checkedEvents := by
  have hred : handleSubmit jsonParse ids s t text (some str)
      = (governorReset s, .malformed) := by
    rcases hp with hp | ⟨j, hp, hj⟩
    · exact handleSubmit_parse_throw jsonParse ids s t text str htext hgate hne hp
    · exact handleSubmit_nonarray jsonParse ids s t text str j htext hgate hne hp hj
  rw [hred]
  exact ⟨rfl, governorReset_events s, governorReset_checked s⟩

/-- Witness for C2 at concrete inputs (non-array JSON value). -/
theorem C2_malformed_preserves_witness :
    (handleSubmit (fun _ => some (Json.obj [])) (fun _ => "")
        ⟨[[("id", Json.str "old")]], {"old"}, 2, 7⟩ 9 "x" (some "j")).2
      = SubmitOutcome.malformed
    ∧ (handleSubmit (fun _ => some (Json.obj [])) (fun _ => "")
        ⟨[[("id", Json.str "old")]], {"old"}, 2, 7⟩ 9 "x" (some "j")).1.events
      = [[("id", Json.str "old")]]
    ∧ (handleSubmit (fun _ => some (Json.obj [])) (fun _ => "")
        ⟨[[("id", Json.str "old")]], {"old"}, 2, 7⟩ 9 "x" (some "j")).1.checkedEvents
      = {"old"} :=
  C2_malformed_preserves (fun _ => some (Json.obj [])) (fun _ => "")
    ⟨[[("id", Json.str "old")]], {"old"}, 2, 7⟩ 9 "x" "j" (by decide) (by decide)
    (by decide) (Or.inr ⟨Json.obj [], rfl, fun xs h => Json.noConfusion h⟩)

/-- Counterexample to C2 as stated: the empty completion text is an
input string that is not valid JSON, yet the call does not fail with
the malformed-response error: it takes the silent empty-result branch
(and even increments the request counter, unlike a parse failure). -/
theorem C2_counterexample :
    (handleSubmit (fun _ => none) (fun _ => "") ⟨[], ∅, 0, 0⟩ 0 "x" (some "")).2
      = SubmitOutcome.emptyResult
    ∧ (handleSubmit (fun _ => none) (fun _ => "") ⟨[], ∅, 0, 0⟩ 0 "x" (some "")).2
      ≠ SubmitOutcome.malformed := by
  refine ⟨rfl, ?_⟩
  intro h
  rw [show (handleSubmit (fun _ => none) (fun _ => "") ⟨[], ∅, 0, 0⟩ 0 "x"
      (some "")).2 = SubmitOutcome.emptyResult from rfl] at h
  exact absurd h (by decide)

/-- C1 (amended): for an admitted call whose completion text parses to
a JSON array of N elements, the parse step produces exactly N records;
the i-th record carries the i-th generated token as its id, so the ids
are pairwise distinct whenever the N generated random tokens are
pairwise distinct (which Math.random makes overwhelmingly likely but
does not guarantee: see the counterexample); and every field other
than id, in particular title, date, time, recurrence and alarm, looks
up in the i-th record to exactly its value in the i-th array element. -/
theorem C1_parse_batch (jsonParse : String → Option Json) (ids : Nat → String)
    (s : AppState) (t : Nat) (text str : String) (xs : List Json)
    (htext : ¬text.length > MAX_TEXT_LENGTH)
    (hgate : ¬(MAX_REQUESTS_PER_MINUTE ≤ s.requestCount ∧
        t - s.lastRequestTime < COOLDOWN_PERIOD))
    (hne : str ≠ "") (hp : jsonParse str = some (Json.arr xs)) :
    (handleSubmit jsonParse ids s t text (some str)).2 = SubmitOutcome.success
    ∧ (handleSubmit jsonParse ids s t text (some str)).1.events.length = xs.length
    ∧ (handleSubmit jsonParse ids s t text (some str)).1.events.map recordId
        = (List.range xs.length).map ids
    ∧ (((List.range xs.length).map ids).Nodup →
        ((handleSubmit jsonParse ids s t text (some str)).1.events.map
            recordId).Nodup)
    ∧ ∀ i e, xs.get? i = some e →
        (handleSubmit jsonParse ids s t text (some str)).1.events.get? i
            = some (spreadWithId e (ids i))
        ∧ ∀ k, k ≠ "id" →
            lookupField (spreadWithId e (ids i)) k = lookupField (jsonSpread e) k := by
  have hred := handleSubmit_success jsonParse ids s t text str xs htext hgate hne hp
  have hout : (handleSubmit jsonParse ids s t text (some str)).2
      = SubmitOutcome.success := by rw [hred]
  have hE : (handleSubmit jsonParse ids s t text (some str)).1.events
      = xs.enum.map (fun p => spreadWithId p.2 (ids p.1)) := by rw [hred]
  have hmap : (handleSubmit jsonParse ids s t text (some str)).1.events.map recordId
      = (List.range xs.length).map ids := by
    rw [hE, List.map_map,
      show (recordId ∘ fun p : Nat × Json => spreadWithId p.2 (ids p.1))
          = (ids ∘ Prod.fst) from
        funext fun p => recordId_spreadWithId p.2 (ids p.1),
      ← List.map_map, List.enum_map_fst]
  refine ⟨hout, ?_, hmap, fun h => by rwa [hmap], ?_⟩
  · rw [hE, List.length_map, List.enum_length]
  · intro i e hget
    refine ⟨?_, fun k hk => lookupField_spreadWithId_ne e (ids i) k hk⟩
    rw [hE, List.get?_map, List.enum_get?, hget]
    rfl

/-- Counterexample to C1 as stated: a well-formed array of two event
objects for which the two Math.random-derived tokens coincide; the
parse step then produces two records with the same id, so the ids are
not pairwise distinct. -/
theorem C1_counterexample :
    (handleSubmit (fun _ => some (Json.arr [Json.obj [], Json.obj []]))
        (fun _ => "x") ⟨[], ∅, 0, 0⟩ 0 "t" (some "j")).2 = SubmitOutcome.success
    ∧ (handleSubmit (fun _ => some (Json.arr [Json.obj [], Json.obj []]))
        (fun _ => "x") ⟨[], ∅, 0, 0⟩ 0 "t" (some "j")).1.events.length = 2
    ∧ ¬((handleSubmit (fun _ => some (Json.arr [Json.obj [], Json.obj []]))
        (fun _ => "x") ⟨[], ∅, 0, 0⟩ 0 "t" (some "j")).1.events.map
          recordId).Nodup := by
  refine ⟨rfl, rfl, ?_⟩
  intro h
  rw [show (handleSubmit (fun _ => some (Json.arr [Json.obj [], Json.obj []]))
      (fun _ => "x") ⟨[], ∅, 0, 0⟩ 0 "t" (some "j")).1.events.map recordId
      = ["x", "x"] from rfl] at h
  simp at h

/-- Witness for C1 at concrete inputs with distinct generated tokens. -/
theorem C1_parse_batch_witness :
    (handleSubmit (fun _ => some (Json.arr [Json.obj [("title", Json.str "A")],
        Json.obj []])) natToString ⟨[], ∅, 0, 0⟩ 0 "t" (some "j")).2
      = SubmitOutcome.success
    ∧ ((handleSubmit (fun _ => some (Json.arr [Json.obj [("title", Json.str "A")],
        Json.obj []])) natToString ⟨[], ∅, 0, 0⟩ 0 "t" (some "j")).1.events.map
          recordId).Nodup
    ∧ (handleSubmit (fun _ => some (Json.arr [Json.obj [("title", Json.str "A")],
        Json.obj []])) natToString ⟨[], ∅, 0, 0⟩ 0 "t" (some "j")).1.events.get? 0
      = some (spreadWithId (Json.obj [("title", Json.str "A")]) (natToString 0)) := by
  have h := C1_parse_batch (fun _ => some (Json.arr [Json.obj
      [("title", Json.str "A")], Json.obj []])) natToString ⟨[], ∅, 0, 0⟩ 0 "t" "j"
    [Json.obj [("title", Json.str "A")], Json.obj []] (by decide) (by decide)
    (by decide) rfl
  exact ⟨h.1, h.2.2.2.1 (by decide), (h.2.2.2.2 0 _ rfl).1⟩

/-- C5 (amended): the object spread copies every own property of the
source element into the constructed record, with the id bound on top:
the i-th record is exactly the i-th element's properties with id set,
and every key other than id, recognized or not, looks up to exactly
its value in the source element.  Fields outside the recognized set
are therefore retained in the runtime record (they are merely
invisible to the declared Event type and unused by the serializer),
not removed. -/
theorem C5_spread_retains (jsonParse : String → Option Json) (ids : Nat → String)
    (s : AppState) (t : Nat) (text str : String) (xs : List Json)
    (htext : ¬text.length > MAX_TEXT_LENGTH)
    (hgate : ¬(MAX_REQUESTS_PER_MINUTE ≤ s.requestCount ∧
        t - s.lastRequestTime < COOLDOWN_PERIOD))
    (hne : str ≠ "") (hp : jsonParse str = some (Json.arr xs)) :
    ∀ i e, xs.get? i = some e →
      (handleSubmit jsonParse ids s t text (some str)).1.events.get? i
          = some (setField (jsonSpread e) "id" (Json.str (ids i)))
      ∧ ∀ k, k ≠ "id" →
          lookupField (setField (jsonSpread e) "id" (Json.str (ids i))) k
            = lookupField (jsonSpread e) k := by
  have hred := handleSubmit_success jsonParse ids s t text str xs htext hgate hne hp
  have hE : (handleSubmit jsonParse ids s t text (some str)).1.events
      = xs.enum.map (fun p => spreadWithId p.2 (ids p.1)) := by rw [hred]
  intro i e hget
  refine ⟨?_, fun k hk => lookupField_setField_ne _ _ _ _ (Ne.symm hk)⟩
  rw [hE, List.get?_map, List.enum_get?, hget]
  rfl

/-- Counterexample to C5 as stated: an element with the unrecognized
field location; the constructed record retains that field, so it does
appear in the resulting record. -/
theorem C5_counterexample :
    (handleSubmit (fun _ => some (Json.arr [Json.obj
        [("title", Json.str "Call"), ("location", Json.str "Paris")]]))
      (fun _ => "k9") ⟨[], ∅, 0, 0⟩ 0 "t" (some "j")).1.events
      = [[("title", Json.str "Call"), ("location", Json.str "Paris"),
          ("id", Json.str "k9")]]
    ∧ lookupField [("title", Json.str "Call"), ("location", Json.str "Paris"),
        ("id", Json.str "k9")] "location" = some (Json.str "Paris") :=
  ⟨rfl, rfl⟩

/-- Witness for C5 at concrete inputs. -/
theorem C5_spread_retains_witness :
    (handleSubmit (fun _ => some (Json.arr [Json.obj [("title", Json.str "B"),
        ("venue", Json.str "Hall")]])) (fun _ => "w2") ⟨[], ∅, 0, 0⟩ 0 "t"
        (some "j")).1.events.get? 0
      = some (setField (jsonSpread (Json.obj [("title", Json.str "B"),
          ("venue", Json.str "Hall")])) "id" (Json.str "w2"))
    ∧ lookupField (setField (jsonSpread (Json.obj [("title", Json.str "B"),
        ("venue", Json.str "Hall")])) "id" (Json.str "w2")) "venue"
      = lookupField (jsonSpread (Json.obj [("title", Json.str "B"),
          ("venue", Json.str "Hall")])) "venue" := by
  have h := C5_spread_retains (fun _ => some (Json.arr [Json.obj
      [("title", Json.str "B"), ("venue", Json.str "Hall")]])) (fun _ => "w2")
    ⟨[], ∅, 0, 0⟩ 0 "t" "j" [Json.obj [("title", Json.str "B"),
      ("venue", Json.str "Hall")]] (by decide) (by decide) (by decide) rfl 0 _ rfl
  exact ⟨h.1, h.2 "venue" (by decide)⟩

theorem handleSubmit_noResult (jsonParse : String → Option Json)
    (ids : Nat → String) (s : AppState) (t : Nat) (text : String)
    (htext : ¬text.length > MAX_TEXT_LENGTH)
    (hgate : ¬(MAX_REQUESTS_PER_MINUTE ≤ s.requestCount ∧
        t - s.lastRequestTime < COOLDOWN_PERIOD)) :
    handleSubmit jsonParse ids s t text none
      = ({ governorReset s with
            requestCount := (governorReset s).requestCount + 1,
            lastRequestTime := t }, .emptyResult) := by
  rw [handleSubmit, if_neg htext, if_neg hgate]

theorem handleSubmit_emptyText (jsonParse : String → Option Json)
    (ids : Nat → String) (s : AppState) (t : Nat) (text : String)
    (htext : ¬text.length > MAX_TEXT_LENGTH)
    (hgate : ¬(MAX_REQUESTS_PER_MINUTE ≤ s.requestCount ∧
        t - s.lastRequestTime < COOLDOWN_PERIOD)) :
    handleSubmit jsonParse ids s t text (some "")
      = ({ governorReset s with
            requestCount := (governorReset s).requestCount + 1,
            lastRequestTime := t }, .emptyResult) := by
  rw [handleSubmit, if_neg htext, if_neg hgate]
  rfl

/-- C8 (amended): an admitted call increments requestCount by exactly
one (on top of the lazily reset value) and records the call timestamp
precisely when the completion result is absent, empty, or parses to an
array; when the completion text is non-empty and its parse throws, the
catch branch skips both queued updates, so the count keeps the
(possibly lazily reset) value and the timestamp stays what it was.
The increment is therefore not unconditional: see the counterexample. -/
theorem C8_count_update (jsonParse : String → Option Json) (ids : Nat → String)
    (s : AppState) (t : Nat) (text : String)
    (htext : ¬text.length > MAX_TEXT_LENGTH)
    (hgate : ¬(MAX_REQUESTS_PER_MINUTE ≤ s.requestCount ∧
        t - s.lastRequestTime < COOLDOWN_PERIOD)) :
    ((handleSubmit jsonParse ids s t text none).1.requestCount
        = (governorReset s).requestCount + 1
      ∧ (handleSubmit jsonParse ids s t text none).1.lastRequestTime = t)
    ∧ (∀ str xs, str ≠ "" → jsonParse str = some (Json.arr xs) →
        (handleSubmit jsonParse ids s t text (some str)).1.requestCount
            = (governorReset s).requestCount + 1
        ∧ (handleSubmit jsonParse ids s t text (some str)).1.lastRequestTime = t)
    ∧ (∀ str, str ≠ "" → jsonParse str = none →
        (handleSubmit jsonParse ids s t text (some str)).1.requestCount
            = (governorReset s).requestCount
        ∧ (handleSubmit jsonParse ids s t text (some str)).1.lastRequestTime
            = s.lastRequestTime) := by
  refine ⟨?_, ?_, ?_⟩
  · rw [handleSubmit_noResult jsonParse ids s t text htext hgate]
    exact ⟨rfl, rfl⟩
  · intro str xs hne hp
    rw [handleSubmit_success jsonParse ids s t text str xs htext hgate hne hp]
    exact ⟨rfl, rfl⟩
  · intro str hne hp
    rw [handleSubmit_parse_throw jsonParse ids s t text str htext hgate hne hp]
    exact ⟨rfl, governorReset_last s⟩

/-- Counterexample to C8 as stated: an admitted call (it passes the
length check and the governor, and the upstream call is made) whose
completion text fails to parse leaves requestCount at 3 instead of
incrementing it to 4, and leaves lastRequestTime at 5 instead of
recording the call time 100. -/
theorem C8_counterexample :
    (handleSubmit (fun _ => none) (fun _ => "") ⟨[], ∅, 3, 5⟩ 100 "x"
        (some "bad")).2 = SubmitOutcome.malformed
    ∧ (handleSubmit (fun _ => none) (fun _ => "") ⟨[], ∅, 3, 5⟩ 100 "x"
        (some "bad")).1.requestCount = 3
    ∧ (handleSubmit (fun _ => none) (fun _ => "") ⟨[], ∅, 3, 5⟩ 100 "x"
        (some "bad")).1.lastRequestTime = 5 :=
  ⟨rfl, rfl, rfl⟩

/-- Witness for C8 at concrete inputs. -/
theorem C8_count_update_witness :
    ((handleSubmit (fun _ => some (Json.arr [])) (fun _ => "") ⟨[], ∅, 2, 7⟩ 9 "x"
        none).1.requestCount
      = (governorReset ⟨[], ∅, 2, 7⟩).requestCount + 1
    ∧ (handleSubmit (fun _ => some (Json.arr [])) (fun _ => "") ⟨[], ∅, 2, 7⟩ 9 "x"
        none).1.lastRequestTime = 9)
    ∧ ((handleSubmit (fun _ => some (Json.arr [])) (fun _ => "") ⟨[], ∅, 2, 7⟩ 9 "x"
        (some "ok")).1.requestCount
      = (governorReset ⟨[], ∅, 2, 7⟩).requestCount + 1
    ∧ (handleSubmit (fun _ => some (Json.arr [])) (fun _ => "") ⟨[], ∅, 2, 7⟩ 9 "x"
        (some "ok")).1.lastRequestTime = 9) := by
  have h := C8_count_update (fun _ => some (Json.arr [])) (fun _ => "")
    ⟨[], ∅, 2, 7⟩ 9 "x" (by decide) (by decide)
  exact ⟨h.1, h.2.1 "ok" [] (by decide) rfl⟩

/-- C4 (amended): from a state whose requestCount has reached the
maximum (which takes eight admitted calls whose extraction and parse
did not throw, since only those are counted: see the counterexample),
a call made strictly less than the cooldown window after the recorded
lastRequestTime is denied as rate limited with no state change and no
dependence on the completion boundary (no upstream call); a call made
once the window has elapsed is admitted, and when its parse succeeds
the count is reset and re-incremented to exactly 1 and the call time
is recorded. -/
theorem C4_rate_window (s : AppState)
    (hcount : MAX_REQUESTS_PER_MINUTE ≤ s.requestCount) :
    (∀ (jsonParse : String → Option Json) (ids : Nat → String) (t : Nat)
        (text : String) (result : Option String),
        ¬text.length > MAX_TEXT_LENGTH →
        t - s.lastRequestTime < COOLDOWN_PERIOD →
        handleSubmit jsonParse ids s t text result = (s, SubmitOutcome.rateLimited))
    ∧ (∀ (jsonParse : String → Option Json) (ids : Nat → String) (t : Nat)
        (text str : String) (xs : List Json),
        ¬text.length > MAX_TEXT_LENGTH →
        COOLDOWN_PERIOD ≤ t - s.lastRequestTime →
        str ≠ "" → jsonParse str = some (Json.arr xs) →
        (handleSubmit jsonParse ids s t text (some str)).2 = SubmitOutcome.success
        ∧ (handleSubmit jsonParse ids s t text (some str)).1.requestCount = 1
        ∧ (handleSubmit jsonParse ids s t text (some str)).1.lastRequestTime = t) := by
  constructor
  · intro jsonParse ids t text result htext hwin
    rw [handleSubmit, if_neg htext, if_pos ⟨hcount, hwin⟩]
  · intro jsonParse ids t text str xs htext hwin hne hp
    have hgate : ¬(MAX_REQUESTS_PER_MINUTE ≤ s.requestCount ∧
        t - s.lastRequestTime < COOLDOWN_PERIOD) := by
      intro hc
      omega
    rw [handleSubmit_success jsonParse ids s t text str xs htext hgate hne hp]
    refine ⟨rfl, ?_, rfl⟩
    rw [governorReset, if_pos hcount]

/-- Counterexample to C4 as stated: nine consecutive calls, all within
one window, every one of them admitted (none is denied as rate limited
and none is rejected for length): because each call's parse throws,
the counter is never incremented, so the ninth call is still admitted
even though eight admitted calls already happened inside the window. -/
theorem C4_counterexample :
    (chainFail 0).2 = SubmitOutcome.malformed
    ∧ (chainFail 1).2 = SubmitOutcome.malformed
    ∧ (chainFail 2).2 = SubmitOutcome.malformed
    ∧ (chainFail 3).2 = SubmitOutcome.malformed
    ∧ (chainFail 4).2 = SubmitOutcome.malformed
    ∧ (chainFail 5).2 = SubmitOutcome.malformed
    ∧ (chainFail 6).2 = SubmitOutcome.malformed
    ∧ (chainFail 7).2 = SubmitOutcome.malformed
    ∧ (chainFail 8).2 = SubmitOutcome.malformed
    ∧ (chainFail 8).2 ≠ SubmitOutcome.rateLimited := by
  refine ⟨rfl, rfl, rfl, rfl, rfl, rfl, rfl, rfl, rfl, ?_⟩
  intro h
  rw [show (chainFail 8).2 = SubmitOutcome.malformed from rfl] at h
  exact absurd h (by decide)

/-- Witness for C4 at concrete inputs: with the counter at the
maximum, a call 2000 ms after the recorded time is denied unchanged,
and a call 69000 ms after it succeeds with the counter reset to 1. -/
theorem C4_rate_window_witness :
    handleSubmit (fun _ => some (Json.arr [])) (fun _ => "") ⟨[], ∅, 8, 1000⟩ 3000
        "x" (some "z")
      = (⟨[], ∅, 8, 1000⟩, SubmitOutcome.rateLimited)
    ∧ ((handleSubmit (fun _ => some (Json.arr [])) (fun _ => "") ⟨[], ∅, 8, 1000⟩
          70000 "x" (some "z")).2 = SubmitOutcome.success
        ∧ (handleSubmit (fun _ => some (Json.arr [])) (fun _ => "")
            ⟨[], ∅, 8, 1000⟩ 70000 "x" (some "z")).1.requestCount = 1
        ∧ (handleSubmit (fun _ => some (Json.arr [])) (fun _ => "")
            ⟨[], ∅, 8, 1000⟩ 70000 "x" (some "z")).1.lastRequestTime = 70000) := by
  have h := C4_rate_window ⟨[], ∅, 8, 1000⟩ (by decide)
  exact ⟨h.1 (fun _ => some (Json.arr [])) (fun _ => "") 3000 "x" (some "z")
      (by decide) (by decide),
    h.2 (fun _ => some (Json.arr [])) (fun _ => "") 70000 "x" "z" [] (by decide)
      (by decide) (by decide) rfl⟩

